import Mathlib

/-!
Verification of the argument-parsing and result-reporting core of the
Quapp-Store/quapp-cli repository (two CLIs: the `quapp` dev tool and the
`create-quapp` scaffolder).  Each definition below is a shallow embedding of
one JavaScript function from the repository; theorems at the end settle the
frozen claims about this code.
-/

set_option maxRecDepth 10000

/-- JS `value.startsWith('-')` for a single-character search string. -/
def headIsDash (s : String) : Bool :=
  match s.data with
  | [] => false
  | c :: _ => c = '-'

/-- Digit run to a natural number (decimal). -/
def digitsToNat (cs : List Char) : Nat :=
  cs.foldl (fun a c => a * 10 + (c.toNat - 48)) 0

/-- JS `parseInt(s, 10)`: skip leading whitespace, optional sign, then the
maximal run of leading decimal digits; `none` models `NaN`. -/
def jsParseInt (s : String) : Option Int :=
  let cs := s.data.dropWhile (fun c => c == ' ' || c == '\t' || c == '\n' || c == '\r')
  match cs with
  | '-' :: rest =>
      let ds := rest.takeWhile Char.isDigit
      if ds.isEmpty then none else some (-(digitsToNat ds : Int))
  | '+' :: rest =>
      let ds := rest.takeWhile Char.isDigit
      if ds.isEmpty then none else some ((digitsToNat ds : Int))
  | rest =>
      let ds := rest.takeWhile Char.isDigit
      if ds.isEmpty then none else some ((digitsToNat ds : Int))

/-- Boolean substring test: `sub` occurs contiguously inside `s`. -/
def strContains (s sub : String) : Bool :=
  (List.range (s.data.length + 1)).any (fun i => sub.data.isPrefixOf (s.data.drop i))

namespace Quapp

-- `EXIT_CODES` from `lib/constants.js` of the quapp dev tool.
namespace EXIT_CODES

def SUCCESS : Nat := 0

def GENERAL_ERROR : Nat := 1

def INVALID_ARGS : Nat := 2

def BUILD_FAILED : Nat := 3

def CONFIG_ERROR : Nat := 4

def MISSING_DEPENDENCY : Nat := 5

def USER_CANCELLED : Nat := 130

end EXIT_CODES

/-- The mutable accumulator built by `parseArgs` in the quapp dev tool
(`lib/args.js`): one field per canonical flag, plus positional `extra`
and the diagnostic list `errors`.  The JS field `open` is called
`openFlag` here (`open` is a Lean keyword). -/
structure Args where
  command : Option String := none
  help : Bool := false
  version : Bool := false
  json : Bool := false
  verbose : Bool := false
  noColor : Bool := false
  port : Option Int := none
  host : Option String := none
  qr : Bool := true
  openFlag : Bool := false
  https : Bool := false
  output : Option String := none
  clean : Bool := true
  skipPrompts : Bool := false
  yes : Bool := false
  force : Bool := false
  dryRun : Bool := false
  extra : List String := []
  errors : List String := []
deriving DecidableEq, Repr

/-- Error text `Flag "<flag>" requires a value`. -/
def reqValueMsg (flag : String) : String :=
  "Flag \"" ++ flag ++ "\" requires a value"

/-- Error text `Invalid port: "<v>". Must be 1-65535`. -/
def invalidPortMsg (v : String) : String :=
  "Invalid port: \"" ++ v ++ "\". Must be 1-65535"

/-- Error text `Flag "<flag>" is only valid for "<cmd>" command`. -/
def onlyValidMsg (flag cmd : String) : String :=
  "Flag \"" ++ flag ++ "\" is only valid for \"" ++ cmd ++ "\" command"

/-- Error text for an unrecognized dash-token (dev tool, current parser). -/
def unknownFlagMsg (cmd : Option String) (t : String) : String :=
  match cmd with
  | some c => "Unknown flag: \"" ++ t ++ "\". Run \"quapp " ++ c ++ " --help\" for available options"
  | none => "Unknown flag: \"" ++ t ++ "\". Run \"quapp --help\" for available commands"

/-- Error text for an unexpected bare token (dev tool, current parser). -/
def unexpectedArgMsg (cmd : Option String) (t : String) : String :=
  match cmd with
  | some c => "Unexpected argument: \"" ++ t ++ "\". Run \"quapp " ++ c ++ " --help\" for usage"
  | none => "Unknown command: \"" ++ t ++ "\". Run \"quapp --help\" for available commands"

-- One helper per assignment statement of the source loop; keeping each
-- update a named function keeps the unfolded loop small enough to reason
-- about symbolically.

/-- `args.command = arg`. -/
def setCommand (t : String) (a : Args) : Args := { a with command := some t }

/-- `args.help = true`. -/
def setHelp (a : Args) : Args := { a with help := true }

/-- `args.version = true`. -/
def setVersion (a : Args) : Args := { a with version := true }

/-- `args.json = true`. -/
def setJson (a : Args) : Args := { a with json := true }

/-- `args.verbose = true`. -/
def setVerbose (a : Args) : Args := { a with verbose := true }

/-- `args.noColor = true`. -/
def setNoColor (a : Args) : Args := { a with noColor := true }

/-- `args.port = port`. -/
def setPort (p : Int) (a : Args) : Args := { a with port := some p }

/-- `args.host = value`. -/
def setHost (v : String) (a : Args) : Args := { a with host := some v }

/-- `args.qr = false`. -/
def setQrOff (a : Args) : Args := { a with qr := false }

/-- `args.open = true`. -/
def setOpenOn (a : Args) : Args := { a with openFlag := true }

/-- `args.https = true`. -/
def setHttps (a : Args) : Args := { a with https := true }

/-- `args.output = value`. -/
def setOutput (v : String) (a : Args) : Args := { a with output := some v }

/-- `args.clean = false`. -/
def setCleanOff (a : Args) : Args := { a with clean := false }

/-- `args.skipPrompts = true`. -/
def setSkipPrompts (a : Args) : Args := { a with skipPrompts := true }

/-- `args.yes = true`. -/
def setYes (a : Args) : Args := { a with yes := true }

/-- `args.force = true`. -/
def setForce (a : Args) : Args := { a with force := true }

/-- `args.dryRun = true`. -/
def setDryRun (a : Args) : Args := { a with dryRun := true }

/-- `args.errors.push(msg)`. -/
def pushErr (m : String) (a : Args) : Args := { a with errors := a.errors ++ [m] }

/-- The while-loop of `parseArgs` in the current dev-tool parser.  Each match
arm mirrors one `if (arg === ...)` branch of the source; valued flags inspect
the next token and refuse to consume a missing, empty, or dash-initial token
(`if (!value || value.startsWith('-'))`). -/
def parseLoop : List String → Args → Args
  | [], a => a
  | t :: rest, a =>
    if a.command = none ∧ (t = "serve" ∨ t = "build" ∨ t = "init") then
      parseLoop rest (setCommand t a)
    else if t = "-h" ∨ t = "--help" then
      parseLoop rest (setHelp a)
    else if t = "-v" ∨ t = "--version" then
      parseLoop rest (setVersion a)
    else if t = "--json" then
      parseLoop rest (setJson a)
    else if t = "--verbose" then
      parseLoop rest (setVerbose a)
    else if t = "--no-color" then
      parseLoop rest (setNoColor a)
    else if t = "-p" ∨ t = "--port" then
      match rest with
      | [] => parseLoop [] (pushErr (reqValueMsg "--port") a)
      | v :: rest2 =>
        if v = "" ∨ headIsDash v = true then
          parseLoop (v :: rest2) (pushErr (reqValueMsg "--port") a)
        else
          match jsParseInt v with
          | none => parseLoop rest2 (pushErr (invalidPortMsg v) a)
          | some p =>
            if p < 1 ∨ 65535 < p then
              parseLoop rest2 (pushErr (invalidPortMsg v) a)
            else
              parseLoop rest2 (setPort p a)
    else if t = "--host" then
      match rest with
      | [] => parseLoop [] (pushErr (reqValueMsg "--host") a)
      | v :: rest2 =>
        if v = "" ∨ headIsDash v = true then
          parseLoop (v :: rest2) (pushErr (reqValueMsg "--host") a)
        else
          parseLoop rest2 (setHost v a)
    else if t = "--no-qr" then
      parseLoop rest (setQrOff a)
    else if t = "--open" then
      parseLoop rest (setOpenOn a)
    else if t = "--https" then
      parseLoop rest (setHttps a)
    else if t = "-o" ∨ t = "--output" then
      match rest with
      | [] => parseLoop [] (pushErr (reqValueMsg "--output") a)
      | v :: rest2 =>
        if v = "" ∨ headIsDash v = true then
          parseLoop (v :: rest2) (pushErr (reqValueMsg "--output") a)
        else
          parseLoop rest2 (setOutput v a)
    else if t = "--no-clean" then
      parseLoop rest (setCleanOff a)
    else if t = "--skip-prompts" then
      parseLoop rest (setSkipPrompts a)
    else if t = "-y" ∨ t = "--yes" then
      parseLoop rest (setYes a)
    else if t = "-f" ∨ t = "--force" then
      parseLoop rest (setForce a)
    else if t = "--dry-run" then
      parseLoop rest (setDryRun a)
    else if headIsDash t = true then
      parseLoop rest (pushErr (unknownFlagMsg a.command t) a)
    else
      parseLoop rest (pushErr (unexpectedArgMsg a.command t) a)

/-- The scoping errors `validateCommandFlags` appends, as a function of the
command and flag fields only (the source reads exactly these fields and
pushes the messages in this order). -/
def scopeErrs (a : Args) : List String :=
  match a.command with
  | none => []
  | some c =>
    (if c ≠ "serve" then
      (if a.port ≠ none then [onlyValidMsg "--port" "serve"] else [])
      ++ (if a.host ≠ none then [onlyValidMsg "--host" "serve"] else [])
      ++ (if a.qr = false then [onlyValidMsg "--no-qr" "serve"] else [])
      ++ (if a.openFlag = true then [onlyValidMsg "--open" "serve"] else [])
      ++ (if a.https = true then [onlyValidMsg "--https" "serve"] else [])
    else [])
    ++ (if c ≠ "build" then
      (if a.output ≠ none then [onlyValidMsg "--output" "build"] else [])
      ++ (if a.clean = false then [onlyValidMsg "--no-clean" "build"] else [])
      ++ (if a.skipPrompts = true then [onlyValidMsg "--skip-prompts" "build"] else [])
    else [])
    ++ (if c ≠ "init" then
      (if a.yes = true then [onlyValidMsg "--yes" "init"] else [])
      ++ (if a.force = true then [onlyValidMsg "--force" "init"] else [])
      ++ (if a.dryRun = true then [onlyValidMsg "--dry-run" "init"] else [])
    else [])

/-- `validateCommandFlags(args)` of the current dev-tool parser: appends the
scoping diagnostics to `args.errors` and changes nothing else. -/
def validateCommandFlags (a : Args) : Args :=
  { a with errors := a.errors ++ scopeErrs a }

/-- `parseArgs(argv)` of the current dev-tool parser: run the token loop on
the fresh accumulator, then validate command scoping. -/
def parseArgs (argv : List String) : Args :=
  validateCommandFlags (parseLoop argv {})

end Quapp

namespace QuappLegacy

/-- The legacy dev-tool parser (`packages/quapp/lib/args.js`).  Same flag
surface and accumulator as the current parser, but valued flags consume the
next token unconditionally (`argv[++i]`), unrecognized dash tokens and bare
tokens are pushed into `extra` as pass-through arguments, and there is no
`validateCommandFlags` step.  It reuses `Quapp.Args`. -/
def parseLoop : List String → Quapp.Args → Quapp.Args
  | [], a => a
  | t :: rest, a =>
    if a.command = none ∧ (t = "serve" ∨ t = "build" ∨ t = "init") then
      parseLoop rest { a with command := some t }
    else if t = "-h" ∨ t = "--help" then
      parseLoop rest { a with help := true }
    else if t = "-v" ∨ t = "--version" then
      parseLoop rest { a with version := true }
    else if t = "--json" then
      parseLoop rest { a with json := true }
    else if t = "--verbose" then
      parseLoop rest { a with verbose := true }
    else if t = "--no-color" then
      parseLoop rest { a with noColor := true }
    else if t = "-p" ∨ t = "--port" then
      -- `const value = argv[++i]; const port = parseInt(value, 10);` with no
      -- guard: a missing value is JS `undefined`, interpolated as the string
      -- "undefined" in the error message.
      match rest with
      | [] => parseLoop [] { a with errors := a.errors ++ [Quapp.invalidPortMsg "undefined"] }
      | v :: rest2 =>
        match jsParseInt v with
        | none => parseLoop rest2 { a with errors := a.errors ++ [Quapp.invalidPortMsg v] }
        | some p =>
          if p < 1 ∨ 65535 < p then
            parseLoop rest2 { a with errors := a.errors ++ [Quapp.invalidPortMsg v] }
          else
            parseLoop rest2 { a with port := some p }
    else if t = "--host" then
      match rest with
      | [] => parseLoop [] { a with host := none }
      | v :: rest2 => parseLoop rest2 { a with host := some v }
    else if t = "--no-qr" then
      parseLoop rest { a with qr := false }
    else if t = "--open" then
      parseLoop rest { a with openFlag := true }
    else if t = "--https" then
      parseLoop rest { a with https := true }
    else if t = "-o" ∨ t = "--output" then
      match rest with
      | [] => parseLoop [] { a with output := none }
      | v :: rest2 => parseLoop rest2 { a with output := some v }
    else if t = "--no-clean" then
      parseLoop rest { a with clean := false }
    else if t = "--skip-prompts" then
      parseLoop rest { a with skipPrompts := true }
    else if t = "-y" ∨ t = "--yes" then
      parseLoop rest { a with yes := true }
    else if t = "-f" ∨ t = "--force" then
      parseLoop rest { a with force := true }
    else if t = "--dry-run" then
      parseLoop rest { a with dryRun := true }
    else if headIsDash t = true then
      -- "Could be a Vite flag, pass it through"
      parseLoop rest { a with extra := a.extra ++ [t] }
    else
      parseLoop rest { a with extra := a.extra ++ [t] }

/-- `parseArgs(argv)` of the legacy dev-tool parser: just the loop, no
command-scoping validation. -/
def parseArgs (argv : List String) : Quapp.Args :=
  parseLoop argv {}

end QuappLegacy

namespace CreateQuapp

-- `EXIT_CODES` from `lib/constants.js` of the create-quapp scaffolder.
namespace EXIT_CODES

def SUCCESS : Nat := 0

def GENERAL_ERROR : Nat := 1

def INVALID_ARGS : Nat := 2

def TEMPLATE_NOT_FOUND : Nat := 3

def GIT_ERROR : Nat := 4

def NETWORK_ERROR : Nat := 5

def USER_CANCELLED : Nat := 130

end EXIT_CODES

/-- `ALL_TEMPLATES` from the scaffolder's `lib/constants.js`
(`Object.values(TEMPLATES).flat()`). -/
def ALL_TEMPLATES : List String :=
  ["react", "react-ts", "react+swc", "react-ts+swc", "vue", "vue-ts",
   "vanilla-js", "vanilla-ts", "solid-js", "solid-ts"]

/-- `isValidManager` from the scaffolder's `lib/package-manager.js`:
membership in `Object.keys(MANAGERS)`. -/
def isValidManager (name : String) : Bool :=
  ["npm", "yarn", "pnpm", "bun"].contains name

/-- The accumulator built by the scaffolder's `parseArgs` (`lib/args.js` of
create-quapp).  `git`/`install` are tri-state (`undefined`/`true`/`false`). -/
structure Args where
  projectName : Option String := none
  template : Option String := none
  author : Option String := none
  description : Option String := none
  force : Bool := false
  git : Option Bool := none
  install : Option Bool := none
  yes : Bool := false
  dryRun : Bool := false
  noColor : Bool := false
  packageManager : Option String := none
  json : Bool := false
  verbose : Bool := false
  help : Bool := false
  version : Bool := false
  errors : List String := []
deriving DecidableEq, Repr

/-- JS truthiness test `!args.projectName` (null or empty string). -/
def jsFalsyStr (o : Option String) : Bool :=
  match o with
  | none => true
  | some s => s == ""

/-- The scaffolder's invalid-template error text. -/
def invalidTemplateMsg (v : String) : String :=
  "Invalid template: \"" ++ v ++ "\". Available: " ++ String.intercalate ", " ALL_TEMPLATES

/-- The scaffolder's invalid-package-manager error text. -/
def invalidPmMsg (v : String) : String :=
  "Invalid package manager: \"" ++ v ++ "\". Use: npm, yarn, pnpm, or bun"

-- One helper per assignment statement of the scaffolder's loop.

/-- `args.help = true`. -/
def setHelp (a : Args) : Args := { a with help := true }

/-- `args.version = true`. -/
def setVersion (a : Args) : Args := { a with version := true }

/-- `args.template = value`. -/
def setTemplate (v : String) (a : Args) : Args := { a with template := some v }

/-- `args.author = value`. -/
def setAuthor (v : String) (a : Args) : Args := { a with author := some v }

/-- `args.description = value`. -/
def setDescription (v : String) (a : Args) : Args := { a with description := some v }

/-- `args.dryRun = true`. -/
def setDryRun (a : Args) : Args := { a with dryRun := true }

/-- `args.force = true`. -/
def setForce (a : Args) : Args := { a with force := true }

/-- `args.git = b`. -/
def setGit (b : Bool) (a : Args) : Args := { a with git := some b }

/-- `args.install = b`. -/
def setInstall (b : Bool) (a : Args) : Args := { a with install := some b }

/-- `args.yes = true`. -/
def setYes (a : Args) : Args := { a with yes := true }

/-- `args.noColor = true`. -/
def setNoColor (a : Args) : Args := { a with noColor := true }

/-- `args.packageManager = value`. -/
def setPm (v : String) (a : Args) : Args := { a with packageManager := some v }

/-- `args.json = true`. -/
def setJson (a : Args) : Args := { a with json := true }

/-- `args.verbose = true`. -/
def setVerbose (a : Args) : Args := { a with verbose := true }

/-- `args.projectName = arg`. -/
def setProjectName (t : String) (a : Args) : Args := { a with projectName := some t }

/-- `args.errors.push(msg)`. -/
def pushErr (m : String) (a : Args) : Args := { a with errors := a.errors ++ [m] }

/-- The while-loop of the scaffolder's `parseArgs`.  Unlike the current
dev-tool parser, valued flags here always consume the next token
(`const value = argv[++i]; ...; i++`), even when it fails the
`!value || value.startsWith('-')` check. -/
def parseLoop : List String → Args → Args
  | [], a => a
  | t :: rest, a =>
    if t = "-h" ∨ t = "--help" then
      parseLoop rest (setHelp a)
    else if t = "-v" ∨ t = "--version" then
      parseLoop rest (setVersion a)
    else if t = "-t" ∨ t = "--template" then
      match rest with
      | [] => parseLoop [] (pushErr "--template requires a value" a)
      | v :: rest2 =>
        if v = "" ∨ headIsDash v = true then
          parseLoop rest2 (pushErr "--template requires a value" a)
        else if ALL_TEMPLATES.contains v = false then
          parseLoop rest2 (pushErr (invalidTemplateMsg v) a)
        else
          parseLoop rest2 (setTemplate v a)
    else if t = "-a" ∨ t = "--author" then
      match rest with
      | [] => parseLoop [] (pushErr "--author requires a value" a)
      | v :: rest2 =>
        if v = "" ∨ headIsDash v = true then
          parseLoop rest2 (pushErr "--author requires a value" a)
        else
          parseLoop rest2 (setAuthor v a)
    else if t = "-d" ∨ t = "--description" then
      match rest with
      | [] => parseLoop [] (pushErr "--description requires a value" a)
      | v :: rest2 =>
        if v = "" ∨ headIsDash v = true then
          parseLoop rest2 (pushErr "--description requires a value" a)
        else
          parseLoop rest2 (setDescription v a)
    else if t = "--dry-run" then
      parseLoop rest (setDryRun a)
    else if t = "-f" ∨ t = "--force" then
      parseLoop rest (setForce a)
    else if t = "-g" ∨ t = "--git" then
      parseLoop rest (setGit true a)
    else if t = "--no-git" then
      parseLoop rest (setGit false a)
    else if t = "-i" ∨ t = "--install" then
      parseLoop rest (setInstall true a)
    else if t = "--no-install" then
      parseLoop rest (setInstall false a)
    else if t = "-y" ∨ t = "--yes" then
      parseLoop rest (setYes a)
    else if t = "--no-color" then
      parseLoop rest (setNoColor a)
    else if t = "--pm" then
      match rest with
      | [] => parseLoop [] (pushErr "--pm requires a value (npm, yarn, pnpm, bun)" a)
      | v :: rest2 =>
        if v = "" ∨ headIsDash v = true then
          parseLoop rest2 (pushErr "--pm requires a value (npm, yarn, pnpm, bun)" a)
        else if isValidManager v = false then
          parseLoop rest2 (pushErr (invalidPmMsg v) a)
        else
          parseLoop rest2 (setPm v a)
    else if t = "--json" then
      parseLoop rest (setJson a)
    else if t = "--verbose" then
      parseLoop rest (setVerbose a)
    else if headIsDash t = true then
      parseLoop rest (pushErr ("Unknown option: " ++ t) a)
    else if jsFalsyStr a.projectName = true then
      parseLoop rest (setProjectName t a)
    else
      parseLoop rest (pushErr ("Unexpected argument: " ++ t) a)

/-- `parseArgs(argv)` of the scaffolder. -/
def parseArgs (argv : List String) : Args :=
  parseLoop argv {}

end CreateQuapp

/-- A handler's result object (Command Result): `success`, optional
`cancelled` marker, machine-readable `errorCode`, human `error`,
`suggestion`, and an `exitCode` override. -/
structure CmdResult where
  success : Bool
  cancelled : Bool := false
  errorCode : Option String := none
  error : Option String := none
  suggestion : Option String := none
  exitCode : Option Nat := none
deriving DecidableEq, Repr

/-- JS `result?.exitCode || dflt`: `undefined` and `0` are falsy. -/
def jsExitOr (o : Option Nat) (dflt : Nat) : Nat :=
  match o with
  | none => dflt
  | some c => if c = 0 then dflt else c

/-- One buffered log record (`{level, message, timestamp}`); the wall-clock
timestamp is omitted from the model. -/
structure LogEntry where
  level : String
  message : String
deriving DecidableEq, Repr

/-- Shape of the single JSON document the tools print in automation mode
(`{ success, cancelled?, signal?, error?, errorCode?, suggestion?, errors?,
logs? }`); handler-specific payload fields do not matter to the claims. -/
structure ResultDoc where
  success : Bool
  cancelled : Bool := false
  signal : Option String := none
  error : Option String := none
  errorCode : Option String := none
  suggestion : Option String := none
  errorsList : List String := []
  logs : Option (List LogEntry) := none
deriving DecidableEq, Repr

/-- The JSON document obtained by spreading a handler result into
`logger.outputJson({...result})`. -/
def CmdResult.toDoc (r : CmdResult) : ResultDoc :=
  { success := r.success, cancelled := r.cancelled, error := r.error,
    errorCode := r.errorCode, suggestion := r.suggestion }

/-- One chunk written to a stream: either plain text (`console.log` /
passthrough) or one serialized JSON document (`JSON.stringify`). -/
inductive OutChunk where
  | text (s : String)
  | jsonDoc (d : ResultDoc)
deriving DecidableEq, Repr

/-- How many parseable JSON values a stream trace contains. -/
def countJson (l : List OutChunk) : Nat :=
  l.countP (fun c => match c with | .jsonDoc _ => true | .text _ => false)

/-- The trace is exactly one JSON document and nothing else. -/
def isSingleJsonDoc (l : List OutChunk) : Bool :=
  match l with
  | [OutChunk.jsonDoc _] => true
  | _ => false

namespace QuappLogger

/-- Module-level logger state of `lib/logger.js` (both tools share the same
logger design): `jsonMode`, `verboseMode` and the buffered `logs`. -/
structure State where
  jsonMode : Bool
  verboseMode : Bool
  logs : List LogEntry
deriving DecidableEq, Repr

/-- `initLogger({json, verbose})`. -/
def init (json verbose : Bool) : State :=
  { jsonMode := json, verboseMode := verbose, logs := [] }

/-- State effect of `logger.error(msg)`: buffered in JSON mode, otherwise
unchanged (the message goes to standard error). -/
def errorState (st : State) (msg : String) : State :=
  if st.jsonMode then { st with logs := st.logs ++ [⟨"error", msg⟩] } else st

/-- Standard-output effect of `logger.error(msg)`: nothing in JSON mode
(buffered) and nothing otherwise (`console.error` writes to stderr). -/
def errorStdout (st : State) (_msg : String) : List OutChunk :=
  if st.jsonMode then [] else []

/-- Standard-error effect of `logger.error(msg)`. -/
def errorStderr (st : State) (msg : String) : List OutChunk :=
  if st.jsonMode then [] else [.text msg]

/-- Standard-output effect of `logger.info(msg)`: buffered in JSON mode,
plain line otherwise. -/
def infoStdout (st : State) (msg : String) : List OutChunk :=
  if st.jsonMode then [] else [.text msg]

/-- `logger.outputJson(result)`: in JSON mode, print exactly one JSON
document, with the log buffer attached as `logs` only in verbose mode;
outside JSON mode, print nothing. -/
def outputJson (st : State) (d : ResultDoc) : List OutChunk :=
  if st.jsonMode then
    [.jsonDoc { d with logs := if st.verboseMode then some st.logs else none }]
  else []

/-- Folding `logger.error` over a diagnostic list (the reporting loop of both
`bin` entry points). -/
def errLoopState (st : State) (errs : List String) : State :=
  errs.foldl errorState st

end QuappLogger

namespace Quapp

/-- Which arm of the dev tool's `main()` a parsed-arguments value reaches
(`bin/quapp.js`): help and version short-circuit first, then the
argument-error report, then the missing-command help, then dispatch. -/
inductive Phase where
  | helpExit
  | versionExit
  | argErrorExit
  | noCommandHelp
  | runCmd (c : String)
deriving DecidableEq, Repr

/-- The routing order of `main()` in `bin/quapp.js`. -/
def route (a : Args) : Phase :=
  if a.help then .helpExit
  else if a.version then .versionExit
  else if a.errors ≠ [] then .argErrorExit
  else
    match a.command with
    | none => .noCommandHelp
    | some c => .runCmd c

/-- Exit code decided before any handler runs (`none` when a handler is
dispatched and the exit code depends on its result). -/
def exitPre : Phase → Option Nat
  | .helpExit => some EXIT_CODES.SUCCESS
  | .versionExit => some EXIT_CODES.SUCCESS
  | .argErrorExit => some EXIT_CODES.INVALID_ARGS
  | .noCommandHelp => some EXIT_CODES.SUCCESS
  | .runCmd _ => none

/-- The handler `main()` dispatches to, if any. -/
def invokedHandler : Phase → Option String
  | .runCmd c => some c
  | _ => none

/-- `process.exit(result?.success ? SUCCESS : (result?.exitCode ||
GENERAL_ERROR))` from the end of `main()`. -/
def finalExit (r : CmdResult) : Nat :=
  if r.success then EXIT_CODES.SUCCESS else jsExitOr r.exitCode EXIT_CODES.GENERAL_ERROR

/-- Stand-in for the first line of `getHelpText()`; the help banner is plain
text (its full ANSI content is irrelevant to the claims). -/
def helpTextLine : String := "quapp - Quapp development CLI"

/-- Stand-in for the `getVersion()` string read from `package.json`. -/
def versionLine : String := "1.1.0"

/-- JSON document of the argument-error report in `main()`:
`logger.outputJson({ success: false, errors: args.errors })` after every
error was buffered through `logger.error`. -/
def argErrorStdout (a : Args) : List OutChunk :=
  if a.json then
    QuappLogger.outputJson
      (QuappLogger.errLoopState (QuappLogger.init a.json a.verbose) a.errors)
      { success := false, errorsList := a.errors }
  else []

/-- Everything the dev tool's `main()` writes to standard output, as a
function of the parsed arguments, of what the dispatched handler itself wrote
to standard output, of the logger buffer the handler left behind, and of the
handler result document.  Mirrors `bin/quapp.js` top to bottom. -/
def mainStdout (a : Args) (handlerOut : List OutChunk) (handlerLogs : List LogEntry)
    (r : ResultDoc) : List OutChunk :=
  if a.help then [.text helpTextLine]
  else if a.version then [.text versionLine]
  else if a.errors ≠ [] then argErrorStdout a
  else
    match a.command with
    | none => [.text helpTextLine]
    | some _ =>
      handlerOut ++ QuappLogger.outputJson ⟨a.json, a.verbose, handlerLogs⟩ r

/-- `commands/serve.js` lines 143-145: every stdout chunk of the spawned
external dev-server process is passed through to standard output unchanged,
in JSON mode too. -/
def servePassthrough (viteOut : List String) : List OutChunk :=
  viteOut.map OutChunk.text

/-- The banner `showQRAndOpenBrowser` prints with bare `console.log` (ANSI
escapes and the QR raster, here a parameter, omitted): it is emitted
unconditionally after 1.5 s even in JSON mode; only the `logger.newline`
calls respect JSON mode. -/
def serveBanner (qr : Bool) (lanUrl : String) (qrRender : List String) : List OutChunk :=
  [.text "Server running!", .text ("Network: " ++ lanUrl)]
  ++ (if qr then [.text "Scan to open on mobile:"] ++ qrRender.map OutChunk.text else [])

/-- Standard output written during one (non-retrying) `runServe` call:
the banner when its timer fired before exit, plus the passthrough of the
external process output. -/
def serveRunStdout (bannerFired qr : Bool) (lanUrl : String)
    (qrRender viteOut : List String) : List OutChunk :=
  (if bannerFired then serveBanner qr lanUrl qrRender else []) ++ servePassthrough viteOut

/-- The cancellation result of `runInit` when the user declines the
confirmation prompt (`commands/init.js`): `cancelled: true`, no `error`. -/
def initCancelledResult : CmdResult :=
  { success := false, cancelled := true, exitCode := some EXIT_CODES.USER_CANCELLED }

end Quapp

namespace CreateQuapp

/-- Which arm of the scaffolder's `main()` a parsed-arguments value reaches
(`index.js` of create-quapp). -/
inductive Phase where
  | helpExit
  | versionExit
  | argErrorExit
  | runScaffold
deriving DecidableEq, Repr

/-- The routing order of the scaffolder's `main()`. -/
def route (a : Args) : Phase :=
  if a.help then .helpExit
  else if a.version then .versionExit
  else if a.errors ≠ [] then .argErrorExit
  else .runScaffold

/-- Exit code decided before the scaffold flow runs. -/
def exitPre : Phase → Option Nat
  | .helpExit => some EXIT_CODES.SUCCESS
  | .versionExit => some EXIT_CODES.SUCCESS
  | .argErrorExit => some EXIT_CODES.INVALID_ARGS
  | .runScaffold => none

/-- `process.exit(result.success ? SUCCESS : result.exitCode ||
GENERAL_ERROR)` from the scaffolder's `main()`. -/
def finalExit (r : CmdResult) : Nat :=
  if r.success then EXIT_CODES.SUCCESS else jsExitOr r.exitCode EXIT_CODES.GENERAL_ERROR

/-- The cancellation result `scaffold` returns when interactive prompts are
aborted (`if (!answers) ...`): `cancelled: true`, no `error`. -/
def promptCancelledResult : CmdResult :=
  { success := false, cancelled := true, exitCode := some EXIT_CODES.USER_CANCELLED }

/-- The JSON document the SIGINT handler emits
(`logger.outputJson({ success: false, cancelled: true, signal })`). -/
def sigintDoc (signal : String) : ResultDoc :=
  { success := false, cancelled := true, signal := some signal }

/-- The exit code of the SIGINT handler (`EXIT_CODES.USER_CANCELLED`). -/
def sigintExit : Nat := EXIT_CODES.USER_CANCELLED

end CreateQuapp

example : (Quapp.parseArgs ["serve", "--port", "3000"]).port = some 3000 := by decide

example : (Quapp.parseArgs ["build", "--port", "3000"]).errors =
    [Quapp.onlyValidMsg "--port" "serve"] := by decide

example : (Quapp.parseArgs ["serve", "--port"]).errors = [Quapp.reqValueMsg "--port"] := by decide

example : (Quapp.parseArgs ["serve", "--port", "-1"]).errors =
    [Quapp.reqValueMsg "--port",
     Quapp.unknownFlagMsg (some "serve") "-1"] := by decide

example : (Quapp.parseArgs ["--port", "3000", "--port", "4000"]).port = some 4000 := by decide

example : (Quapp.parseArgs ["--port", "3000", "--port", "4000"]).errors = [] := by decide

example : (Quapp.parseArgs ["serve", "--port"]).port = none := by decide

/-- C3: parsing `["build", "--port", "3000"]` with the dev-tool parser yields
exactly the scoping error identifying `--port` as valid only for the `serve`
command, the run's pre-handler exit code resolves to `INVALID_ARGS` (2), and
no handler is invoked. -/
theorem c3_build_port_scoping :
    (Quapp.parseArgs ["build", "--port", "3000"]).errors
      = [Quapp.onlyValidMsg "--port" "serve"]
    ∧ strContains (Quapp.onlyValidMsg "--port" "serve") "--port" = true
    ∧ strContains (Quapp.onlyValidMsg "--port" "serve") "serve" = true
    ∧ Quapp.route (Quapp.parseArgs ["build", "--port", "3000"]) = Quapp.Phase.argErrorExit
    ∧ Quapp.exitPre (Quapp.route (Quapp.parseArgs ["build", "--port", "3000"]))
        = some Quapp.EXIT_CODES.INVALID_ARGS
    ∧ Quapp.EXIT_CODES.INVALID_ARGS = 2
    ∧ Quapp.invokedHandler (Quapp.route (Quapp.parseArgs ["build", "--port", "3000"])) = none := by
  decide

/-- C4: parsing `["serve", "--port"]` (value-taking flag at the very end of
input) with the dev-tool parser yields exactly one error, that error contains
"port" and "requires a value", and the `port` field remains unset.  The
parser is a total Lean function, so the run returns normally by
construction. -/
theorem c4_port_missing_value :
    (Quapp.parseArgs ["serve", "--port"]).errors = [Quapp.reqValueMsg "--port"]
    ∧ strContains (Quapp.reqValueMsg "--port") "port" = true
    ∧ strContains (Quapp.reqValueMsg "--port") "requires a value" = true
    ∧ (Quapp.parseArgs ["serve", "--port"]).port = none := by
  decide

/-- C9: every cancellation path carries `cancelled: true` and no `error`
field, and resolves to exit code 130 (`USER_CANCELLED`): the dev tool's
declined `init` confirmation, the scaffolder's aborted prompts, and the
scaffolder's SIGINT handler (whose JSON document is emitted through
`outputJson`). -/
theorem c9_cancellation_contract :
    Quapp.initCancelledResult.cancelled = true
    ∧ Quapp.initCancelledResult.error = none
    ∧ Quapp.finalExit Quapp.initCancelledResult = 130
    ∧ Quapp.EXIT_CODES.USER_CANCELLED = 130
    ∧ Quapp.initCancelledResult.toDoc.cancelled = true
    ∧ Quapp.initCancelledResult.toDoc.error = none
    ∧ CreateQuapp.promptCancelledResult.cancelled = true
    ∧ CreateQuapp.promptCancelledResult.error = none
    ∧ CreateQuapp.finalExit CreateQuapp.promptCancelledResult = 130
    ∧ (CreateQuapp.sigintDoc "SIGINT").cancelled = true
    ∧ (CreateQuapp.sigintDoc "SIGINT").error = none
    ∧ CreateQuapp.sigintExit = 130
    ∧ QuappLogger.outputJson (QuappLogger.init true false) (CreateQuapp.sigintDoc "SIGINT")
        = [OutChunk.jsonDoc { success := false, cancelled := true, signal := some "SIGINT" }] := by
  decide

/-- C1 counterexample: a `serve --json` automation run whose external dev
server wrote one chunk to standard output.  The run's standard output is not
a single JSON value with nothing else: the passthrough handler of
`commands/serve.js` copies the external process output to standard output
even in JSON mode, so the trace holds extra non-JSON text besides the one
JSON document. -/
theorem c1_counterexample :
    (Quapp.parseArgs ["serve", "--json"]).json = true
    ∧ (Quapp.parseArgs ["serve", "--json"]).errors = []
    ∧ countJson
        (Quapp.mainStdout (Quapp.parseArgs ["serve", "--json"])
          (Quapp.serveRunStdout false true "http://192.168.1.23:5173" []
            ["  vite ready in 300 ms"])
          [] { success := true }) = 1
    ∧ isSingleJsonDoc
        (Quapp.mainStdout (Quapp.parseArgs ["serve", "--json"])
          (Quapp.serveRunStdout false true "http://192.168.1.23:5173" []
            ["  vite ready in 300 ms"])
          [] { success := true }) = false := by
  decide

/-- C2 counterexample: the legacy dev-tool parser
(`packages/quapp/lib/args.js`) leaves `--bogus` entirely out of the error
list and forwards it in `extra`, the pass-through bucket `runServe` appends
to the external tool's argument vector. -/
theorem c2_counterexample :
    (QuappLegacy.parseArgs ["--bogus"]).errors = []
    ∧ (QuappLegacy.parseArgs ["--bogus"]).extra = ["--bogus"] := by
  decide

/-- C5 counterexample: with the dev-tool parser, the negative number `-1`
after `--port` is not accepted as the flag's value: the parse yields a
missing-value error (which does not mention the 1-65535 range) plus an
unknown-flag error for `-1` itself, and `port` stays unset. -/
theorem c5_counterexample :
    (Quapp.parseArgs ["serve", "--port", "-1"]).errors
      = [Quapp.reqValueMsg "--port", Quapp.unknownFlagMsg (some "serve") "-1"]
    ∧ (Quapp.parseArgs ["serve", "--port", "-1"]).port = none
    ∧ strContains (Quapp.reqValueMsg "--port") "requires a value" = true
    ∧ strContains (Quapp.reqValueMsg "--port") "1-65535" = false := by
  decide

/-- C7 counterexample: `validateCommandFlags` is not idempotent.  On the
parse of `build --port 3000` (before validation) one application appends the
scoping error once; a second application appends it again, so the error list
differs. -/
theorem c7_counterexample :
    (Quapp.validateCommandFlags (Quapp.parseLoop ["build", "--port", "3000"] {})).errors
      = [Quapp.onlyValidMsg "--port" "serve"]
    ∧ (Quapp.validateCommandFlags (Quapp.validateCommandFlags
        (Quapp.parseLoop ["build", "--port", "3000"] {}))).errors
      = [Quapp.onlyValidMsg "--port" "serve", Quapp.onlyValidMsg "--port" "serve"]
    ∧ (Quapp.validateCommandFlags (Quapp.validateCommandFlags
        (Quapp.parseLoop ["build", "--port", "3000"] {}))).errors
      ≠ (Quapp.validateCommandFlags (Quapp.parseLoop ["build", "--port", "3000"] {})).errors := by
  decide

/-- C8 counterexample: in the scaffolder parser a second bare token does not
accumulate as a positional; it appends an "Unexpected argument" error. -/
theorem c8_counterexample :
    (CreateQuapp.parseArgs ["app1", "app2"]).projectName = some "app1"
    ∧ (CreateQuapp.parseArgs ["app1", "app2"]).errors = ["Unexpected argument: app2"] := by
  decide

/-- C10 counterexample: the scaffolder input `["-t", "-h"]` holds the token
`-h`, yet help is not triggered: the `-h` is swallowed by `--template`'s
missing-value check, and the run takes the argument-error exit (code 2)
instead of printing help and exiting 0. -/
theorem c10_counterexample :
    "-h" ∈ ["-t", "-h"]
    ∧ (CreateQuapp.parseArgs ["-t", "-h"]).help = false
    ∧ CreateQuapp.route (CreateQuapp.parseArgs ["-t", "-h"]) = CreateQuapp.Phase.argErrorExit
    ∧ CreateQuapp.exitPre (CreateQuapp.route (CreateQuapp.parseArgs ["-t", "-h"]))
        = some CreateQuapp.EXIT_CODES.INVALID_ARGS
    ∧ CreateQuapp.EXIT_CODES.INVALID_ARGS = 2 := by
  decide

lemma errorState_jsonMode (st : QuappLogger.State) (m : String) :
    (QuappLogger.errorState st m).jsonMode = st.jsonMode := by
  unfold QuappLogger.errorState
  split <;> rfl

lemma errorState_verboseMode (st : QuappLogger.State) (m : String) :
    (QuappLogger.errorState st m).verboseMode = st.verboseMode := by
  unfold QuappLogger.errorState
  split <;> rfl

lemma errLoopState_jsonMode (errs : List String) (st : QuappLogger.State) :
    (QuappLogger.errLoopState st errs).jsonMode = st.jsonMode := by
  induction errs generalizing st with
  | nil => rfl
  | cons e es ih =>
      simp only [QuappLogger.errLoopState, List.foldl_cons] at ih ⊢
      rw [ih, errorState_jsonMode]

lemma countJson_text (s : String) : countJson [OutChunk.text s] = 0 := by
  simp [countJson]

lemma countJson_append (l l' : List OutChunk) :
    countJson (l ++ l') = countJson l + countJson l' := by
  simp [countJson, List.countP_append]

/-- C1 (amended): in the dev tool, (i) an automation-mode run that takes the
argument-error path writes exactly one JSON document and nothing else to
standard output; (ii) so does an automation-mode run whose dispatched handler
writes nothing directly to standard output (all its messages go through the
logger buffer); and (iii) a run without `--json` writes no JSON value to
standard output as long as its handler writes only plain text.  (The `serve`
handler violates the original blanket claim: it passes the external dev
server's standard output through and prints its banner with bare
`console.log` even in JSON mode, as `c1_counterexample` shows.) -/
theorem c1_json_single_doc :
    (∀ (a : Quapp.Args) (h : List OutChunk) (lg : List LogEntry) (r : ResultDoc),
      a.json = true → a.help = false → a.version = false → a.errors ≠ [] →
      isSingleJsonDoc (Quapp.mainStdout a h lg r) = true)
    ∧ (∀ (a : Quapp.Args) (lg : List LogEntry) (r : ResultDoc),
      a.json = true → a.help = false → a.version = false → a.errors = [] →
      a.command ≠ none →
      isSingleJsonDoc (Quapp.mainStdout a [] lg r) = true)
    ∧ (∀ (a : Quapp.Args) (h : List OutChunk) (lg : List LogEntry) (r : ResultDoc),
      a.json = false → countJson h = 0 →
      countJson (Quapp.mainStdout a h lg r) = 0) := by
  refine ⟨?_, ?_, ?_⟩
  · intro a h lg r hj hh hv he
    unfold Quapp.mainStdout
    rw [hh, hv]
    simp only [Bool.false_eq_true, if_false, if_pos he]
    unfold Quapp.argErrorStdout
    rw [hj]
    unfold QuappLogger.outputJson
    rw [errLoopState_jsonMode]
    simp [QuappLogger.init, isSingleJsonDoc]
  · intro a lg r hj hh hv he hc
    unfold Quapp.mainStdout
    rw [hh, hv, he]
    simp only [Bool.false_eq_true, if_false, ne_eq, not_true_eq_false]
    match hcmd : a.command with
    | none => exact absurd hcmd hc
    | some c =>
        unfold QuappLogger.outputJson
        rw [hj]
        simp [isSingleJsonDoc]
  · intro a h lg r hj hcount
    unfold Quapp.mainStdout
    by_cases hh : a.help = true
    · rw [hh]; simp [countJson_text]
    · rw [Bool.not_eq_true] at hh
      rw [hh]
      by_cases hv : a.version = true
      · rw [hv]; simp [countJson_text]
      · rw [Bool.not_eq_true] at hv
        rw [hv]
        by_cases he : a.errors = []
        · simp only [Bool.false_eq_true, if_false, he, ne_eq, not_true_eq_false]
          match a.command with
          | none => simp [countJson_text]
          | some c =>
              rw [countJson_append, hcount]
              simp [QuappLogger.outputJson, hj, countJson]
        · simp only [Bool.false_eq_true, if_false, if_pos he]
          unfold Quapp.argErrorStdout
          rw [hj]
          simp [countJson]

/-- Witness for `c1_json_single_doc` at concrete runs: an automation-mode run
of `build --bogus --json` (argument-error path) and a plain `serve` run whose
handler wrote one text chunk. -/
theorem c1_witness :
    isSingleJsonDoc
      (Quapp.mainStdout (Quapp.parseArgs ["build", "--bogus", "--json"]) [] []
        { success := false }) = true
    ∧ countJson
        (Quapp.mainStdout (Quapp.parseArgs ["serve"]) [OutChunk.text "ready"] []
          { success := true }) = 0 := by
  constructor
  · exact c1_json_single_doc.1 _ _ _ _ (by decide) (by decide) (by decide) (by decide)
  · exact c1_json_single_doc.2.2 _ _ _ _ (by decide) (by decide)

lemma scopeErrs_errors_update (a : Quapp.Args) (l : List String) :
    Quapp.scopeErrs { a with errors := l } = Quapp.scopeErrs a := rfl

/-- C7 (amended): the command-scoping validator is a pure function of the
command and flag fields — the error list already present does not influence
which scoping errors it appends — and when no command has been selected it
appends nothing at all.  It is, however, not idempotent: a second application
appends the same scoping errors a second time (see `c7_counterexample`). -/
theorem c7_validate_structure :
    (∀ a : Quapp.Args, a.command = none → Quapp.validateCommandFlags a = a)
    ∧ (∀ (a : Quapp.Args) (l : List String),
        Quapp.scopeErrs { a with errors := l } = Quapp.scopeErrs a)
    ∧ (∀ a : Quapp.Args,
        (Quapp.validateCommandFlags (Quapp.validateCommandFlags a)).errors
          = a.errors ++ Quapp.scopeErrs a ++ Quapp.scopeErrs a) := by
  refine ⟨?_, scopeErrs_errors_update, ?_⟩
  · intro a h
    have hs : Quapp.scopeErrs a = [] := by
      unfold Quapp.scopeErrs
      rw [h]
    simp [Quapp.validateCommandFlags, hs]
  · intro a
    simp [Quapp.validateCommandFlags, scopeErrs_errors_update, List.append_assoc]

/-- Witness for `c7_validate_structure`: with no command selected (a bare
`--json` invocation) the validator leaves the parsed arguments unchanged. -/
theorem c7_witness :
    Quapp.validateCommandFlags { json := true } = ({ json := true } : Quapp.Args) :=
  c7_validate_structure.1 _ rfl

/-- Every token the current/legacy dev-tool parser recognizes as a flag
alias (all dash-initial branch tests of its loop). -/
def Quapp.flagTokens : List String :=
  ["-h", "--help", "-v", "--version", "--json", "--verbose", "--no-color",
   "-p", "--port", "--host", "--no-qr", "--open", "--https",
   "-o", "--output", "--no-clean", "--skip-prompts",
   "-y", "--yes", "-f", "--force", "--dry-run"]

/-- Every token the scaffolder parser recognizes as a flag alias. -/
def CreateQuapp.flagTokens : List String :=
  ["-h", "--help", "-v", "--version", "-t", "--template", "-a", "--author",
   "-d", "--description", "--dry-run", "-f", "--force", "-g", "--git",
   "--no-git", "-i", "--install", "--no-install", "-y", "--yes",
   "--no-color", "--pm", "--json", "--verbose"]

lemma quapp_unknown_single (t : String) (hd : headIsDash t = true)
    (hmem : t ∉ Quapp.flagTokens) :
    Quapp.parseLoop [t] {} = { errors := [Quapp.unknownFlagMsg none t] } := by
  have hs : t ≠ "serve" := by intro h; subst h; exact absurd hd (by decide)
  have hb : t ≠ "build" := by intro h; subst h; exact absurd hd (by decide)
  have hi : t ≠ "init" := by intro h; subst h; exact absurd hd (by decide)
  simp only [Quapp.flagTokens, List.mem_cons, List.not_mem_nil, or_false, not_or] at hmem
  obtain ⟨e1, e2, e3, e4, e5, e6, e7, e8, e9, e10, e11, e12, e13, e14, e15, e16,
    e17, e18, e19, e20, e21, e22⟩ := hmem
  simp [Quapp.parseLoop, Quapp.pushErr, hs, hb, hi, hd,
    e1, e2, e3, e4, e5, e6, e7, e8, e9, e10, e11, e12, e13, e14, e15, e16,
    e17, e18, e19, e20, e21, e22]

lemma legacy_unknown_single (t : String) (hd : headIsDash t = true)
    (hmem : t ∉ Quapp.flagTokens) :
    QuappLegacy.parseLoop [t] {} = { extra := [t] } := by
  have hs : t ≠ "serve" := by intro h; subst h; exact absurd hd (by decide)
  have hb : t ≠ "build" := by intro h; subst h; exact absurd hd (by decide)
  have hi : t ≠ "init" := by intro h; subst h; exact absurd hd (by decide)
  simp only [Quapp.flagTokens, List.mem_cons, List.not_mem_nil, or_false, not_or] at hmem
  obtain ⟨e1, e2, e3, e4, e5, e6, e7, e8, e9, e10, e11, e12, e13, e14, e15, e16,
    e17, e18, e19, e20, e21, e22⟩ := hmem
  simp [QuappLegacy.parseLoop, hs, hb, hi, hd,
    e1, e2, e3, e4, e5, e6, e7, e8, e9, e10, e11, e12, e13, e14, e15, e16,
    e17, e18, e19, e20, e21, e22]

lemma scaffolder_unknown_single (t : String) (hd : headIsDash t = true)
    (hmem : t ∉ CreateQuapp.flagTokens) :
    CreateQuapp.parseLoop [t] {} = { errors := ["Unknown option: " ++ t] } := by
  simp only [CreateQuapp.flagTokens, List.mem_cons, List.not_mem_nil, or_false,
    not_or] at hmem
  obtain ⟨e1, e2, e3, e4, e5, e6, e7, e8, e9, e10, e11, e12, e13, e14, e15, e16,
    e17, e18, e19, e20, e21, e22, e23, e24, e25⟩ := hmem
  simp [CreateQuapp.parseLoop, CreateQuapp.pushErr, hd,
    e1, e2, e3, e4, e5, e6, e7, e8, e9, e10, e11, e12, e13, e14, e15, e16,
    e17, e18, e19, e20, e21, e22, e23, e24, e25]

namespace Quapp

/-- One parse step on the last remaining token: every valued flag hits its
missing-value arm (`argv[i + 1]` is `undefined`). -/
lemma parseLoop_one (t : String) (a : Args) :
    parseLoop [t] a =
      if a.command = none ∧ (t = "serve" ∨ t = "build" ∨ t = "init") then setCommand t a
      else if t = "-h" ∨ t = "--help" then setHelp a
      else if t = "-v" ∨ t = "--version" then setVersion a
      else if t = "--json" then setJson a
      else if t = "--verbose" then setVerbose a
      else if t = "--no-color" then setNoColor a
      else if t = "-p" ∨ t = "--port" then pushErr (reqValueMsg "--port") a
      else if t = "--host" then pushErr (reqValueMsg "--host") a
      else if t = "--no-qr" then setQrOff a
      else if t = "--open" then setOpenOn a
      else if t = "--https" then setHttps a
      else if t = "-o" ∨ t = "--output" then pushErr (reqValueMsg "--output") a
      else if t = "--no-clean" then setCleanOff a
      else if t = "--skip-prompts" then setSkipPrompts a
      else if t = "-y" ∨ t = "--yes" then setYes a
      else if t = "-f" ∨ t = "--force" then setForce a
      else if t = "--dry-run" then setDryRun a
      else if headIsDash t = true then pushErr (unknownFlagMsg a.command t) a
      else pushErr (unexpectedArgMsg a.command t) a := rfl

/-- One parse step when at least one token follows: valued flags inspect the
lookahead `v`. -/
lemma parseLoop_two (t v : String) (rest2 : List String) (a : Args) :
    parseLoop (t :: v :: rest2) a =
      if a.command = none ∧ (t = "serve" ∨ t = "build" ∨ t = "init") then
        parseLoop (v :: rest2) (setCommand t a)
      else if t = "-h" ∨ t = "--help" then parseLoop (v :: rest2) (setHelp a)
      else if t = "-v" ∨ t = "--version" then parseLoop (v :: rest2) (setVersion a)
      else if t = "--json" then parseLoop (v :: rest2) (setJson a)
      else if t = "--verbose" then parseLoop (v :: rest2) (setVerbose a)
      else if t = "--no-color" then parseLoop (v :: rest2) (setNoColor a)
      else if t = "-p" ∨ t = "--port" then
        (if v = "" ∨ headIsDash v = true then
          parseLoop (v :: rest2) (pushErr (reqValueMsg "--port") a)
        else
          match jsParseInt v with
          | none => parseLoop rest2 (pushErr (invalidPortMsg v) a)
          | some p =>
            if p < 1 ∨ 65535 < p then parseLoop rest2 (pushErr (invalidPortMsg v) a)
            else parseLoop rest2 (setPort p a))
      else if t = "--host" then
        (if v = "" ∨ headIsDash v = true then
          parseLoop (v :: rest2) (pushErr (reqValueMsg "--host") a)
        else parseLoop rest2 (setHost v a))
      else if t = "--no-qr" then parseLoop (v :: rest2) (setQrOff a)
      else if t = "--open" then parseLoop (v :: rest2) (setOpenOn a)
      else if t = "--https" then parseLoop (v :: rest2) (setHttps a)
      else if t = "-o" ∨ t = "--output" then
        (if v = "" ∨ headIsDash v = true then
          parseLoop (v :: rest2) (pushErr (reqValueMsg "--output") a)
        else parseLoop rest2 (setOutput v a))
      else if t = "--no-clean" then parseLoop (v :: rest2) (setCleanOff a)
      else if t = "--skip-prompts" then parseLoop (v :: rest2) (setSkipPrompts a)
      else if t = "-y" ∨ t = "--yes" then parseLoop (v :: rest2) (setYes a)
      else if t = "-f" ∨ t = "--force" then parseLoop (v :: rest2) (setForce a)
      else if t = "--dry-run" then parseLoop (v :: rest2) (setDryRun a)
      else if headIsDash t = true then
        parseLoop (v :: rest2) (pushErr (unknownFlagMsg a.command t) a)
      else parseLoop (v :: rest2) (pushErr (unexpectedArgMsg a.command t) a) := rfl

/-- Exhaustive shape analysis of one loop iteration: the head token either
triggers the help flag, or is consumed alone leaving `help`/`port`/`host`
untouched and at most appending errors, or is a valued flag that also
consumes a lookahead token which is neither empty nor dash-initial, leaving
`help` untouched. -/
lemma parseLoop_cons_cases (t : String) (rest : List String) (a : Args) :
    ((t = "-h" ∨ t = "--help") ∧ parseLoop (t :: rest) a = parseLoop rest (setHelp a))
    ∨ ((t ≠ "-h" ∧ t ≠ "--help") ∧ ∃ a', parseLoop (t :: rest) a = parseLoop rest a'
        ∧ a'.help = a.help ∧ a'.port = a.port ∧ a'.host = a.host
        ∧ a'.extra = a.extra ∧ ∃ l, a'.errors = a.errors ++ l)
    ∨ ((t ≠ "-h" ∧ t ≠ "--help") ∧ ∃ v rest2 a', rest = v :: rest2 ∧ v ≠ ""
        ∧ headIsDash v = false
        ∧ parseLoop (t :: rest) a = parseLoop rest2 a' ∧ a'.help = a.help
        ∧ a'.extra = a.extra ∧ ∃ l, a'.errors = a.errors ++ l) := by
  cases rest with
  | nil =>
    have e := parseLoop_one t a
    by_cases h1 : a.command = none ∧ (t = "serve" ∨ t = "build" ∨ t = "init")
    · rw [if_pos h1] at e
      have hne : t ≠ "-h" ∧ t ≠ "--help" := by
        rcases h1.2 with h | h | h <;> subst h <;> exact ⟨by decide, by decide⟩
      exact Or.inr (Or.inl ⟨hne, setCommand t a, e, rfl, rfl, rfl, rfl, [], (List.append_nil _).symm⟩)
    rw [if_neg h1] at e
    by_cases h2 : t = "-h" ∨ t = "--help"
    · rw [if_pos h2] at e
      exact Or.inl ⟨h2, e⟩
    rw [if_neg h2] at e
    have hne : t ≠ "-h" ∧ t ≠ "--help" :=
      ⟨fun h => h2 (Or.inl h), fun h => h2 (Or.inr h)⟩
    by_cases h3 : t = "-v" ∨ t = "--version"
    · rw [if_pos h3] at e
      exact Or.inr (Or.inl ⟨hne, setVersion a, e, rfl, rfl, rfl, rfl, [], (List.append_nil _).symm⟩)
    rw [if_neg h3] at e
    by_cases h4 : t = "--json"
    · rw [if_pos h4] at e
      exact Or.inr (Or.inl ⟨hne, setJson a, e, rfl, rfl, rfl, rfl, [], (List.append_nil _).symm⟩)
    rw [if_neg h4] at e
    by_cases h5 : t = "--verbose"
    · rw [if_pos h5] at e
      exact Or.inr (Or.inl ⟨hne, setVerbose a, e, rfl, rfl, rfl, rfl, [], (List.append_nil _).symm⟩)
    rw [if_neg h5] at e
    by_cases h6 : t = "--no-color"
    · rw [if_pos h6] at e
      exact Or.inr (Or.inl ⟨hne, setNoColor a, e, rfl, rfl, rfl, rfl, [], (List.append_nil _).symm⟩)
    rw [if_neg h6] at e
    by_cases h7 : t = "-p" ∨ t = "--port"
    · rw [if_pos h7] at e
      exact Or.inr (Or.inl ⟨hne, pushErr (reqValueMsg "--port") a, e, rfl, rfl, rfl, rfl,
        [reqValueMsg "--port"], rfl⟩)
    rw [if_neg h7] at e
    by_cases h8 : t = "--host"
    · rw [if_pos h8] at e
      exact Or.inr (Or.inl ⟨hne, pushErr (reqValueMsg "--host") a, e, rfl, rfl, rfl, rfl,
        [reqValueMsg "--host"], rfl⟩)
    rw [if_neg h8] at e
    by_cases h9 : t = "--no-qr"
    · rw [if_pos h9] at e
      exact Or.inr (Or.inl ⟨hne, setQrOff a, e, rfl, rfl, rfl, rfl, [], (List.append_nil _).symm⟩)
    rw [if_neg h9] at e
    by_cases h10 : t = "--open"
    · rw [if_pos h10] at e
      exact Or.inr (Or.inl ⟨hne, setOpenOn a, e, rfl, rfl, rfl, rfl, [], (List.append_nil _).symm⟩)
    rw [if_neg h10] at e
    by_cases h11 : t = "--https"
    · rw [if_pos h11] at e
      exact Or.inr (Or.inl ⟨hne, setHttps a, e, rfl, rfl, rfl, rfl, [], (List.append_nil _).symm⟩)
    rw [if_neg h11] at e
    by_cases h12 : t = "-o" ∨ t = "--output"
    · rw [if_pos h12] at e
      exact Or.inr (Or.inl ⟨hne, pushErr (reqValueMsg "--output") a, e, rfl, rfl, rfl, rfl,
        [reqValueMsg "--output"], rfl⟩)
    rw [if_neg h12] at e
    by_cases h13 : t = "--no-clean"
    · rw [if_pos h13] at e
      exact Or.inr (Or.inl ⟨hne, setCleanOff a, e, rfl, rfl, rfl, rfl, [], (List.append_nil _).symm⟩)
    rw [if_neg h13] at e
    by_cases h14 : t = "--skip-prompts"
    · rw [if_pos h14] at e
      exact Or.inr (Or.inl ⟨hne, setSkipPrompts a, e, rfl, rfl, rfl, rfl, [], (List.append_nil _).symm⟩)
    rw [if_neg h14] at e
    by_cases h15 : t = "-y" ∨ t = "--yes"
    · rw [if_pos h15] at e
      exact Or.inr (Or.inl ⟨hne, setYes a, e, rfl, rfl, rfl, rfl, [], (List.append_nil _).symm⟩)
    rw [if_neg h15] at e
    by_cases h16 : t = "-f" ∨ t = "--force"
    · rw [if_pos h16] at e
      exact Or.inr (Or.inl ⟨hne, setForce a, e, rfl, rfl, rfl, rfl, [], (List.append_nil _).symm⟩)
    rw [if_neg h16] at e
    by_cases h17 : t = "--dry-run"
    · rw [if_pos h17] at e
      exact Or.inr (Or.inl ⟨hne, setDryRun a, e, rfl, rfl, rfl, rfl, [], (List.append_nil _).symm⟩)
    rw [if_neg h17] at e
    by_cases h18 : headIsDash t = true
    · rw [if_pos h18] at e
      exact Or.inr (Or.inl ⟨hne, pushErr (unknownFlagMsg a.command t) a, e, rfl, rfl, rfl, rfl,
        [unknownFlagMsg a.command t], rfl⟩)
    rw [if_neg h18] at e
    exact Or.inr (Or.inl ⟨hne, pushErr (unexpectedArgMsg a.command t) a, e, rfl, rfl, rfl, rfl,
      [unexpectedArgMsg a.command t], rfl⟩)
  | cons v rest2 =>
    have e := parseLoop_two t v rest2 a
    by_cases h1 : a.command = none ∧ (t = "serve" ∨ t = "build" ∨ t = "init")
    · rw [if_pos h1] at e
      have hne : t ≠ "-h" ∧ t ≠ "--help" := by
        rcases h1.2 with h | h | h <;> subst h <;> exact ⟨by decide, by decide⟩
      exact Or.inr (Or.inl ⟨hne, setCommand t a, e, rfl, rfl, rfl, rfl, [], (List.append_nil _).symm⟩)
    rw [if_neg h1] at e
    by_cases h2 : t = "-h" ∨ t = "--help"
    · rw [if_pos h2] at e
      exact Or.inl ⟨h2, e⟩
    rw [if_neg h2] at e
    have hne : t ≠ "-h" ∧ t ≠ "--help" :=
      ⟨fun h => h2 (Or.inl h), fun h => h2 (Or.inr h)⟩
    by_cases h3 : t = "-v" ∨ t = "--version"
    · rw [if_pos h3] at e
      exact Or.inr (Or.inl ⟨hne, setVersion a, e, rfl, rfl, rfl, rfl, [], (List.append_nil _).symm⟩)
    rw [if_neg h3] at e
    by_cases h4 : t = "--json"
    · rw [if_pos h4] at e
      exact Or.inr (Or.inl ⟨hne, setJson a, e, rfl, rfl, rfl, rfl, [], (List.append_nil _).symm⟩)
    rw [if_neg h4] at e
    by_cases h5 : t = "--verbose"
    · rw [if_pos h5] at e
      exact Or.inr (Or.inl ⟨hne, setVerbose a, e, rfl, rfl, rfl, rfl, [], (List.append_nil _).symm⟩)
    rw [if_neg h5] at e
    by_cases h6 : t = "--no-color"
    · rw [if_pos h6] at e
      exact Or.inr (Or.inl ⟨hne, setNoColor a, e, rfl, rfl, rfl, rfl, [], (List.append_nil _).symm⟩)
    rw [if_neg h6] at e
    by_cases h7 : t = "-p" ∨ t = "--port"
    · rw [if_pos h7] at e
      by_cases hg : v = "" ∨ headIsDash v = true
      · rw [if_pos hg] at e
        exact Or.inr (Or.inl ⟨hne, pushErr (reqValueMsg "--port") a, e, rfl, rfl, rfl, rfl,
          [reqValueMsg "--port"], rfl⟩)
      · rw [if_neg hg] at e
        have hgv : v ≠ "" := fun h => hg (Or.inl h)
        have hnd : headIsDash v = false := by
          cases hb : headIsDash v
          · rfl
          · exact absurd (Or.inr hb) hg
        rcases hjp : jsParseInt v with _ | p
        · rw [hjp] at e
          exact Or.inr (Or.inr ⟨hne, v, rest2, pushErr (invalidPortMsg v) a, rfl, hgv, hnd,
            e, rfl, rfl, [invalidPortMsg v], rfl⟩)
        · rw [hjp] at e
          have e2 : parseLoop (t :: v :: rest2) a
              = if p < 1 ∨ 65535 < p then parseLoop rest2 (pushErr (invalidPortMsg v) a)
                else parseLoop rest2 (setPort p a) := e
          by_cases hr : p < 1 ∨ 65535 < p
          · rw [if_pos hr] at e2
            exact Or.inr (Or.inr ⟨hne, v, rest2, pushErr (invalidPortMsg v) a, rfl, hgv, hnd,
              e2, rfl, rfl, [invalidPortMsg v], rfl⟩)
          · rw [if_neg hr] at e2
            exact Or.inr (Or.inr ⟨hne, v, rest2, setPort p a, rfl, hgv, hnd, e2, rfl, rfl, [],
              (List.append_nil _).symm⟩)
    rw [if_neg h7] at e
    by_cases h8 : t = "--host"
    · rw [if_pos h8] at e
      by_cases hg : v = "" ∨ headIsDash v = true
      · rw [if_pos hg] at e
        exact Or.inr (Or.inl ⟨hne, pushErr (reqValueMsg "--host") a, e, rfl, rfl, rfl, rfl,
          [reqValueMsg "--host"], rfl⟩)
      · rw [if_neg hg] at e
        have hgv : v ≠ "" := fun h => hg (Or.inl h)
        have hnd : headIsDash v = false := by
          cases hb : headIsDash v
          · rfl
          · exact absurd (Or.inr hb) hg
        exact Or.inr (Or.inr ⟨hne, v, rest2, setHost v a, rfl, hgv, hnd, e, rfl, rfl, [],
          (List.append_nil _).symm⟩)
    rw [if_neg h8] at e
    by_cases h9 : t = "--no-qr"
    · rw [if_pos h9] at e
      exact Or.inr (Or.inl ⟨hne, setQrOff a, e, rfl, rfl, rfl, rfl, [], (List.append_nil _).symm⟩)
    rw [if_neg h9] at e
    by_cases h10 : t = "--open"
    · rw [if_pos h10] at e
      exact Or.inr (Or.inl ⟨hne, setOpenOn a, e, rfl, rfl, rfl, rfl, [], (List.append_nil _).symm⟩)
    rw [if_neg h10] at e
    by_cases h11 : t = "--https"
    · rw [if_pos h11] at e
      exact Or.inr (Or.inl ⟨hne, setHttps a, e, rfl, rfl, rfl, rfl, [], (List.append_nil _).symm⟩)
    rw [if_neg h11] at e
    by_cases h12 : t = "-o" ∨ t = "--output"
    · rw [if_pos h12] at e
      by_cases hg : v = "" ∨ headIsDash v = true
      · rw [if_pos hg] at e
        exact Or.inr (Or.inl ⟨hne, pushErr (reqValueMsg "--output") a, e, rfl, rfl, rfl, rfl,
          [reqValueMsg "--output"], rfl⟩)
      · rw [if_neg hg] at e
        have hgv : v ≠ "" := fun h => hg (Or.inl h)
        have hnd : headIsDash v = false := by
          cases hb : headIsDash v
          · rfl
          · exact absurd (Or.inr hb) hg
        exact Or.inr (Or.inr ⟨hne, v, rest2, setOutput v a, rfl, hgv, hnd, e, rfl, rfl, [],
          (List.append_nil _).symm⟩)
    rw [if_neg h12] at e
    by_cases h13 : t = "--no-clean"
    · rw [if_pos h13] at e
      exact Or.inr (Or.inl ⟨hne, setCleanOff a, e, rfl, rfl, rfl, rfl, [], (List.append_nil _).symm⟩)
    rw [if_neg h13] at e
    by_cases h14 : t = "--skip-prompts"
    · rw [if_pos h14] at e
      exact Or.inr (Or.inl ⟨hne, setSkipPrompts a, e, rfl, rfl, rfl, rfl, [], (List.append_nil _).symm⟩)
    rw [if_neg h14] at e
    by_cases h15 : t = "-y" ∨ t = "--yes"
    · rw [if_pos h15] at e
      exact Or.inr (Or.inl ⟨hne, setYes a, e, rfl, rfl, rfl, rfl, [], (List.append_nil _).symm⟩)
    rw [if_neg h15] at e
    by_cases h16 : t = "-f" ∨ t = "--force"
    · rw [if_pos h16] at e
      exact Or.inr (Or.inl ⟨hne, setForce a, e, rfl, rfl, rfl, rfl, [], (List.append_nil _).symm⟩)
    rw [if_neg h16] at e
    by_cases h17 : t = "--dry-run"
    · rw [if_pos h17] at e
      exact Or.inr (Or.inl ⟨hne, setDryRun a, e, rfl, rfl, rfl, rfl, [], (List.append_nil _).symm⟩)
    rw [if_neg h17] at e
    by_cases h18 : headIsDash t = true
    · rw [if_pos h18] at e
      exact Or.inr (Or.inl ⟨hne, pushErr (unknownFlagMsg a.command t) a, e, rfl, rfl, rfl, rfl,
        [unknownFlagMsg a.command t], rfl⟩)
    rw [if_neg h18] at e
    exact Or.inr (Or.inl ⟨hne, pushErr (unexpectedArgMsg a.command t) a, e, rfl, rfl, rfl, rfl,
      [unexpectedArgMsg a.command t], rfl⟩)

end Quapp

lemma validate_port (a : Quapp.Args) :
    (Quapp.validateCommandFlags a).port = a.port := rfl

lemma validate_host (a : Quapp.Args) :
    (Quapp.validateCommandFlags a).host = a.host := rfl

lemma validate_help (a : Quapp.Args) :
    (Quapp.validateCommandFlags a).help = a.help := rfl

lemma validate_errors_head (a : Quapp.Args) (x : String) (h : a.errors.head? = some x) :
    (Quapp.validateCommandFlags a).errors.head? = some x := by
  unfold Quapp.validateCommandFlags
  cases he : a.errors with
  | nil => rw [he] at h; exact absurd h (by simp)
  | cons y ys =>
      rw [he] at h
      simp only [List.head?_cons, Option.some_inj] at h
      subst h
      simp [he]

lemma parseLoop_single_shape (v : String) (a : Quapp.Args) :
    ∃ a', Quapp.parseLoop [v] a = a' ∧ a'.host = a.host
      ∧ ∃ l, a'.errors = a.errors ++ l := by
  rcases Quapp.parseLoop_cons_cases v [] a with ⟨_, e⟩ | ⟨_, a', e, _, _, hh, _, hl⟩ |
    ⟨_, v', rest2, _, hrest, _⟩
  · exact ⟨Quapp.setHelp a, e, rfl, [], (List.append_nil _).symm⟩
  · exact ⟨a', e, hh, hl⟩
  · exact absurd hrest (by simp)

lemma serve_host_dash_steps (v : String) (hv : headIsDash v = true) :
    Quapp.parseLoop ["serve", "--host", v] {}
      = Quapp.parseLoop [v]
          (Quapp.pushErr (Quapp.reqValueMsg "--host") (Quapp.setCommand "serve" {})) := by
  have e0 : Quapp.parseLoop ["serve", "--host", v] {}
      = Quapp.parseLoop ["--host", v] (Quapp.setCommand "serve" {}) := rfl
  have e := Quapp.parseLoop_two "--host" v [] (Quapp.setCommand "serve" {})
  rw [if_neg (by simp [Quapp.setCommand]), if_neg (by decide), if_neg (by decide),
    if_neg (by decide), if_neg (by decide), if_neg (by decide), if_neg (by decide),
    if_pos (by decide : ("--host" : String) = "--host"), if_pos (Or.inr hv)] at e
  exact e0.trans e

/-- C5 (amended): the dev-tool parser never accepts a dash-initial token as a
valued flag's value, not even a negative number after `--port`: it appends
the missing-value error and re-processes the token (which then surfaces as an
unknown flag, see `c5_counterexample`); and for the non-numeric valued flag
`--host` any dash-initial lookahead leaves the field unset with the
missing-value error first in the list. -/
theorem c5_dash_value_policy :
    ((Quapp.parseArgs ["serve", "--port", "-1"]).errors
        = [Quapp.reqValueMsg "--port", Quapp.unknownFlagMsg (some "serve") "-1"]
      ∧ (Quapp.parseArgs ["serve", "--port", "-1"]).port = none)
    ∧ ∀ v : String, headIsDash v = true →
        (Quapp.parseArgs ["serve", "--host", v]).host = none
        ∧ (Quapp.parseArgs ["serve", "--host", v]).errors.head?
            = some (Quapp.reqValueMsg "--host") := by
  refine ⟨⟨by decide, by decide⟩, ?_⟩
  intro v hv
  unfold Quapp.parseArgs
  rw [serve_host_dash_steps v hv]
  rcases parseLoop_single_shape v
      (Quapp.pushErr (Quapp.reqValueMsg "--host") (Quapp.setCommand "serve" {})) with
    ⟨a', e, hhost, l, hl⟩
  rw [e]
  constructor
  · rw [validate_host, hhost]; rfl
  · apply validate_errors_head
    rw [hl]
    rfl

/-- Witness for `c5_dash_value_policy` at the dash token `--bogus`. -/
theorem c5_witness :
    (Quapp.parseArgs ["serve", "--host", "--bogus"]).host = none
    ∧ (Quapp.parseArgs ["serve", "--host", "--bogus"]).errors.head?
        = some (Quapp.reqValueMsg "--host") :=
  c5_dash_value_policy.2 "--bogus" (by decide)

lemma portTail (a : Quapp.Args) :
    Quapp.parseLoop ["--port", "4000"] a = Quapp.setPort 4000 a := by
  have e := Quapp.parseLoop_two "--port" "4000" [] a
  rw [if_neg (by simp), if_neg (by decide), if_neg (by decide), if_neg (by decide),
    if_neg (by decide), if_neg (by decide),
    if_pos (by decide : ("--port" = "-p" ∨ ("--port" : String) = "--port")),
    if_neg (by decide), show jsParseInt "4000" = some (4000 : Int) from by decide] at e
  have e2 : Quapp.parseLoop ["--port", "4000"] a
      = if (4000 : Int) < 1 ∨ 65535 < (4000 : Int) then
          Quapp.parseLoop [] (Quapp.pushErr (Quapp.invalidPortMsg "4000") a)
        else Quapp.parseLoop [] (Quapp.setPort 4000 a) := e
  rw [if_neg (by decide)] at e2
  exact e2

lemma parseLoop_port_last (n : Nat) :
    ∀ (xs : List String) (a : Quapp.Args), xs.length ≤ n →
      (Quapp.parseLoop (xs ++ ["--port", "4000"]) a).port = some (4000 : Int) := by
  induction n with
  | zero =>
      intro xs a hlen
      cases xs with
      | nil => rw [List.nil_append, portTail]; rfl
      | cons x xs' => simp at hlen
  | succ n ih =>
      intro xs a hlen
      cases xs with
      | nil => rw [List.nil_append, portTail]; rfl
      | cons x xs' =>
          have hlen' : xs'.length ≤ n := by
            simp only [List.length_cons] at hlen; omega
          rw [List.cons_append]
          rcases Quapp.parseLoop_cons_cases x (xs' ++ ["--port", "4000"]) a with
            ⟨_, e⟩ | ⟨_, a', e, _, _, _, _⟩ | ⟨_, v, rest2, a', hrest, _, hnd, e, _⟩
          · rw [e]; exact ih xs' _ hlen'
          · rw [e]; exact ih xs' _ hlen'
          · rw [e]
            cases xs' with
            | nil =>
                simp only [List.nil_append] at hrest
                have hv : v = "--port" := by
                  injection hrest with h1 _
                  exact h1.symm
                rw [hv] at hnd
                exact absurd hnd (by decide)
            | cons w xs'' =>
                simp only [List.cons_append] at hrest
                injection hrest with h1 h2
                have hlen2 : xs''.length ≤ n := by
                  simp only [List.length_cons] at hlen; omega
                rw [← h2]
                exact ih xs'' _ hlen2

/-- C6: repeated valued flags keep only the last occurrence.  Concretely,
`--port 3000 --port 4000` parses to `port = 4000` with no error and no
accumulation (the `port` field is a single optional value by construction of
`Args`); and in general, whatever tokens precede it, a final valid
`--port 4000` leaves `port = 4000`. -/
theorem c6_last_write_wins :
    ((Quapp.parseArgs ["--port", "3000", "--port", "4000"]).port = some (4000 : Int)
      ∧ (Quapp.parseArgs ["--port", "3000", "--port", "4000"]).errors = [])
    ∧ ∀ xs : List String,
        (Quapp.parseArgs (xs ++ ["--port", "4000"])).port = some (4000 : Int) := by
  refine ⟨⟨by decide, by decide⟩, ?_⟩
  intro xs
  unfold Quapp.parseArgs
  rw [validate_port]
  exact parseLoop_port_last xs.length xs {} le_rfl

lemma parseLoop_help_mono (n : Nat) :
    ∀ (ts : List String) (a : Quapp.Args), ts.length ≤ n → a.help = true →
      (Quapp.parseLoop ts a).help = true := by
  induction n with
  | zero =>
      intro ts a hlen hh
      cases ts with
      | nil => exact hh
      | cons t rest => simp at hlen
  | succ n ih =>
      intro ts a hlen hh
      cases ts with
      | nil => exact hh
      | cons t rest =>
          have hlen' : rest.length ≤ n := by
            simp only [List.length_cons] at hlen; omega
          rcases Quapp.parseLoop_cons_cases t rest a with
            ⟨_, e⟩ | ⟨_, a', e, hhp, _, _, _⟩ | ⟨_, v, rest2, a', hrest, _, _, e, hhp, _⟩
          · rw [e]; exact ih rest _ hlen' rfl
          · rw [e]; exact ih rest _ hlen' (hhp.trans hh)
          · rw [e]
            subst hrest
            have hlen2 : rest2.length ≤ n := by
              simp only [List.length_cons] at hlen; omega
            exact ih rest2 _ hlen2 (hhp.trans hh)

lemma parseLoop_help_mem (n : Nat) :
    ∀ (ts : List String) (a : Quapp.Args), ts.length ≤ n →
      ("-h" ∈ ts ∨ "--help" ∈ ts) → (Quapp.parseLoop ts a).help = true := by
  induction n with
  | zero =>
      intro ts a hlen hm
      cases ts with
      | nil => simp at hm
      | cons t rest => simp at hlen
  | succ n ih =>
      intro ts a hlen hm
      cases ts with
      | nil => simp at hm
      | cons t rest =>
          have hlen' : rest.length ≤ n := by
            simp only [List.length_cons] at hlen; omega
          rcases Quapp.parseLoop_cons_cases t rest a with
            ⟨_, e⟩ | ⟨hne, a', e, _, _, _, _⟩ | ⟨hne, v, rest2, a', hrest, _, hnd, e, _⟩
          · rw [e]; exact parseLoop_help_mono n rest _ hlen' rfl
          · rw [e]
            apply ih rest a' hlen'
            rcases hm with hm | hm
            · rcases List.mem_cons.mp hm with he | hm'
              · exact absurd he.symm hne.1
              · exact Or.inl hm'
            · rcases List.mem_cons.mp hm with he | hm'
              · exact absurd he.symm hne.2
              · exact Or.inr hm'
          · rw [e]
            subst hrest
            have hlen2 : rest2.length ≤ n := by
              simp only [List.length_cons] at hlen; omega
            apply ih rest2 a' hlen2
            have hv1 : v ≠ "-h" := fun h => by
              subst h; exact absurd hnd (by decide)
            have hv2 : v ≠ "--help" := fun h => by
              subst h; exact absurd hnd (by decide)
            rcases hm with hm | hm
            · rcases List.mem_cons.mp hm with he | hm'
              · exact absurd he.symm hne.1
              · rcases List.mem_cons.mp hm' with he | hm''
                · exact absurd he.symm hv1
                · exact Or.inl hm''
            · rcases List.mem_cons.mp hm with he | hm'
              · exact absurd he.symm hne.2
              · rcases List.mem_cons.mp hm' with he | hm''
                · exact absurd he.symm hv2
                · exact Or.inr hm''

/-- C10 (amended): in the dev tool, any occurrence of `-h`/`--help` anywhere
in the input sets `help`, and `main()` then prints the help text and exits 0
before error checks, never invoking a handler and never emitting JSON,
regardless of `--json` or of other bad tokens.  The scaffolder behaves the
same for a free-standing `-h`, except when the token immediately follows a
valued flag: there it is consumed by the missing-value check and ignored
(see `c10_counterexample`). -/
theorem c10_help_short_circuit :
    (∀ (argv : List String) (h : List OutChunk) (lg : List LogEntry) (r : ResultDoc),
      ("-h" ∈ argv ∨ "--help" ∈ argv) →
      (Quapp.parseArgs argv).help = true
      ∧ Quapp.route (Quapp.parseArgs argv) = Quapp.Phase.helpExit
      ∧ Quapp.exitPre (Quapp.route (Quapp.parseArgs argv)) = some Quapp.EXIT_CODES.SUCCESS
      ∧ Quapp.invokedHandler (Quapp.route (Quapp.parseArgs argv)) = none
      ∧ Quapp.mainStdout (Quapp.parseArgs argv) h lg r = [OutChunk.text Quapp.helpTextLine])
    ∧ ((CreateQuapp.parseArgs ["-h"]).help = true
        ∧ CreateQuapp.route (CreateQuapp.parseArgs ["-h"]) = CreateQuapp.Phase.helpExit)
    ∧ (CreateQuapp.parseArgs ["-t", "-h"]).help = false := by
  refine ⟨?_, ⟨by decide, by decide⟩, by decide⟩
  intro argv h lg r hm
  have hp : (Quapp.parseArgs argv).help = true := by
    unfold Quapp.parseArgs
    rw [validate_help]
    exact parseLoop_help_mem argv.length argv {} le_rfl hm
  refine ⟨hp, ?_, ?_, ?_, ?_⟩
  · simp [Quapp.route, hp]
  · simp [Quapp.route, hp, Quapp.exitPre]
  · simp [Quapp.route, hp, Quapp.invokedHandler]
  · simp [Quapp.mainStdout, hp]

/-- Witness for `c10_help_short_circuit`: a run mixing `-h` with a parse
error still prints help and exits 0. -/
theorem c10_witness :
    (Quapp.parseArgs ["build", "--bogus", "-h"]).help = true
    ∧ Quapp.route (Quapp.parseArgs ["build", "--bogus", "-h"]) = Quapp.Phase.helpExit
    ∧ Quapp.exitPre (Quapp.route (Quapp.parseArgs ["build", "--bogus", "-h"]))
        = some Quapp.EXIT_CODES.SUCCESS
    ∧ Quapp.invokedHandler (Quapp.route (Quapp.parseArgs ["build", "--bogus", "-h"])) = none
    ∧ Quapp.mainStdout (Quapp.parseArgs ["build", "--bogus", "-h"]) [] [] { success := true }
        = [OutChunk.text Quapp.helpTextLine] :=
  c10_help_short_circuit.1 ["build", "--bogus", "-h"] [] [] { success := true } (by decide)

lemma ne_of_not_dash (s x : String) (hs : headIsDash s = false)
    (hx : headIsDash x = true) : s ≠ x := fun h => by
  subst h
  rw [hs] at hx
  exact Bool.false_ne_true hx

/-- C8 (amended): in the scaffolder parser the first bare token becomes the
project-name positional, but every further bare token appends an
"Unexpected argument" error naming it — the parser has no positional
accumulator (see `c8_counterexample`). -/
theorem c8_scaffolder_positionals (s t : String) (hs0 : s ≠ "")
    (hs : headIsDash s = false) (ht : headIsDash t = false) :
    (CreateQuapp.parseArgs [s, t]).projectName = some s
    ∧ (CreateQuapp.parseArgs [s, t]).errors = ["Unexpected argument: " ++ t] := by
  have hsb : (s == "") = false := by simp [hs0]
  constructor <;>
    simp [CreateQuapp.parseArgs, CreateQuapp.parseLoop, CreateQuapp.jsFalsyStr,
      CreateQuapp.setProjectName, CreateQuapp.pushErr, hs, ht, hsb,
      ne_of_not_dash s "-h" hs (by decide), ne_of_not_dash s "--help" hs (by decide),
      ne_of_not_dash s "-v" hs (by decide), ne_of_not_dash s "--version" hs (by decide),
      ne_of_not_dash s "-t" hs (by decide), ne_of_not_dash s "--template" hs (by decide),
      ne_of_not_dash s "-a" hs (by decide), ne_of_not_dash s "--author" hs (by decide),
      ne_of_not_dash s "-d" hs (by decide), ne_of_not_dash s "--description" hs (by decide),
      ne_of_not_dash s "--dry-run" hs (by decide), ne_of_not_dash s "-f" hs (by decide),
      ne_of_not_dash s "--force" hs (by decide), ne_of_not_dash s "-g" hs (by decide),
      ne_of_not_dash s "--git" hs (by decide), ne_of_not_dash s "--no-git" hs (by decide),
      ne_of_not_dash s "-i" hs (by decide), ne_of_not_dash s "--install" hs (by decide),
      ne_of_not_dash s "--no-install" hs (by decide), ne_of_not_dash s "-y" hs (by decide),
      ne_of_not_dash s "--yes" hs (by decide), ne_of_not_dash s "--no-color" hs (by decide),
      ne_of_not_dash s "--pm" hs (by decide), ne_of_not_dash s "--json" hs (by decide),
      ne_of_not_dash s "--verbose" hs (by decide),
      ne_of_not_dash t "-h" ht (by decide), ne_of_not_dash t "--help" ht (by decide),
      ne_of_not_dash t "-v" ht (by decide), ne_of_not_dash t "--version" ht (by decide),
      ne_of_not_dash t "-t" ht (by decide), ne_of_not_dash t "--template" ht (by decide),
      ne_of_not_dash t "-a" ht (by decide), ne_of_not_dash t "--author" ht (by decide),
      ne_of_not_dash t "-d" ht (by decide), ne_of_not_dash t "--description" ht (by decide),
      ne_of_not_dash t "--dry-run" ht (by decide), ne_of_not_dash t "-f" ht (by decide),
      ne_of_not_dash t "--force" ht (by decide), ne_of_not_dash t "-g" ht (by decide),
      ne_of_not_dash t "--git" ht (by decide), ne_of_not_dash t "--no-git" ht (by decide),
      ne_of_not_dash t "-i" ht (by decide), ne_of_not_dash t "--install" ht (by decide),
      ne_of_not_dash t "--no-install" ht (by decide), ne_of_not_dash t "-y" ht (by decide),
      ne_of_not_dash t "--yes" ht (by decide), ne_of_not_dash t "--no-color" ht (by decide),
      ne_of_not_dash t "--pm" ht (by decide), ne_of_not_dash t "--json" ht (by decide),
      ne_of_not_dash t "--verbose" ht (by decide)]

/-- Witness for `c8_scaffolder_positionals` at two concrete bare tokens. -/
theorem c8_witness :
    (CreateQuapp.parseArgs ["my-app", "extra"]).projectName = some "my-app"
    ∧ (CreateQuapp.parseArgs ["my-app", "extra"]).errors
        = ["Unexpected argument: " ++ "extra"] :=
  c8_scaffolder_positionals "my-app" "extra" (by decide) (by decide) (by decide)

lemma validate_extra (a : Quapp.Args) :
    (Quapp.validateCommandFlags a).extra = a.extra := rfl

lemma validate_errors_mem (a : Quapp.Args) (m : String) (h : m ∈ a.errors) :
    m ∈ (Quapp.validateCommandFlags a).errors :=
  List.mem_append_left (Quapp.scopeErrs a) h

lemma parseLoop_extra_keep (n : Nat) :
    ∀ (ts : List String) (a : Quapp.Args), ts.length ≤ n →
      (Quapp.parseLoop ts a).extra = a.extra := by
  induction n with
  | zero =>
      intro ts a hlen
      cases ts with
      | nil => rfl
      | cons t rest => simp at hlen
  | succ n ih =>
      intro ts a hlen
      cases ts with
      | nil => rfl
      | cons t rest =>
          have hlen' : rest.length ≤ n := by
            simp only [List.length_cons] at hlen; omega
          rcases Quapp.parseLoop_cons_cases t rest a with
            ⟨_, e⟩ | ⟨_, a', e, _, _, _, hx, _⟩ | ⟨_, v, rest2, a', hrest, _, _, e, _, hx, _⟩
          · rw [e]; exact (ih rest _ hlen').trans rfl
          · rw [e]; exact (ih rest a' hlen').trans hx
          · rw [e]
            subst hrest
            have hlen2 : rest2.length ≤ n := by
              simp only [List.length_cons] at hlen; omega
            exact (ih rest2 a' hlen2).trans hx

lemma parseLoop_errors_mono (n : Nat) :
    ∀ (ts : List String) (a : Quapp.Args), ts.length ≤ n →
      ∃ l, (Quapp.parseLoop ts a).errors = a.errors ++ l := by
  induction n with
  | zero =>
      intro ts a hlen
      cases ts with
      | nil => exact ⟨[], (List.append_nil _).symm⟩
      | cons t rest => simp at hlen
  | succ n ih =>
      intro ts a hlen
      cases ts with
      | nil => exact ⟨[], (List.append_nil _).symm⟩
      | cons t rest =>
          have hlen' : rest.length ≤ n := by
            simp only [List.length_cons] at hlen; omega
          rcases Quapp.parseLoop_cons_cases t rest a with
            ⟨_, e⟩ | ⟨_, a', e, _, _, _, _, l0, hl0⟩ |
            ⟨_, v, rest2, a', hrest, _, _, e, _, _, l0, hl0⟩
          · rw [e]
            rcases ih rest (Quapp.setHelp a) hlen' with ⟨l, hl⟩
            exact ⟨l, hl⟩
          · rw [e]
            rcases ih rest a' hlen' with ⟨l1, hl1⟩
            exact ⟨l0 ++ l1, by rw [hl1, hl0, List.append_assoc]⟩
          · rw [e]
            subst hrest
            have hlen2 : rest2.length ≤ n := by
              simp only [List.length_cons] at hlen; omega
            rcases ih rest2 a' hlen2 with ⟨l1, hl1⟩
            exact ⟨l0 ++ l1, by rw [hl1, hl0, List.append_assoc]⟩

/-- When the head token is an unrecognized dash-initial token, the current
dev-tool loop appends exactly the unknown-flag error naming it (with the
command context current at that moment) and moves on — in every position,
because no valued flag ever consumes a dash-initial lookahead. -/
lemma parseLoop_unknown_step (t : String) (rest : List String) (a : Quapp.Args)
    (hd : headIsDash t = true) (hmem : t ∉ Quapp.flagTokens) :
    Quapp.parseLoop (t :: rest) a
      = Quapp.parseLoop rest (Quapp.pushErr (Quapp.unknownFlagMsg a.command t) a) := by
  have hs : t ≠ "serve" := fun h => by subst h; exact absurd hd (by decide)
  have hb : t ≠ "build" := fun h => by subst h; exact absurd hd (by decide)
  have hi : t ≠ "init" := fun h => by subst h; exact absurd hd (by decide)
  simp only [Quapp.flagTokens, List.mem_cons, List.not_mem_nil, or_false, not_or] at hmem
  obtain ⟨e1, e2, e3, e4, e5, e6, e7, e8, e9, e10, e11, e12, e13, e14, e15, e16,
    e17, e18, e19, e20, e21, e22⟩ := hmem
  cases rest with
  | nil =>
      have e := Quapp.parseLoop_one t a
      rw [if_neg (by simp [hs, hb, hi]), if_neg (by simp [e1, e2]),
        if_neg (by simp [e3, e4]), if_neg e5, if_neg e6, if_neg e7,
        if_neg (by simp [e8, e9]), if_neg e10, if_neg e11, if_neg e12, if_neg e13,
        if_neg (by simp [e14, e15]), if_neg e16, if_neg e17,
        if_neg (by simp [e18, e19]), if_neg (by simp [e20, e21]), if_neg e22,
        if_pos hd] at e
      exact e
  | cons v rest2 =>
      have e := Quapp.parseLoop_two t v rest2 a
      rw [if_neg (by simp [hs, hb, hi]), if_neg (by simp [e1, e2]),
        if_neg (by simp [e3, e4]), if_neg e5, if_neg e6, if_neg e7,
        if_neg (by simp [e8, e9]), if_neg e10, if_neg e11, if_neg e12, if_neg e13,
        if_neg (by simp [e14, e15]), if_neg e16, if_neg e17,
        if_neg (by simp [e18, e19]), if_neg (by simp [e20, e21]), if_neg e22,
        if_pos hd] at e
      exact e

lemma parseLoop_unknown_mem (n : Nat) (t : String) (hd : headIsDash t = true)
    (hmem : t ∉ Quapp.flagTokens) :
    ∀ (ts : List String) (a : Quapp.Args), ts.length ≤ n → t ∈ ts →
      ∃ c, Quapp.unknownFlagMsg c t ∈ (Quapp.parseLoop ts a).errors := by
  induction n with
  | zero =>
      intro ts a hlen hm
      cases ts with
      | nil => simp at hm
      | cons u rest => simp at hlen
  | succ n ih =>
      intro ts a hlen hm
      cases ts with
      | nil => simp at hm
      | cons u rest =>
          have hlen' : rest.length ≤ n := by
            simp only [List.length_cons] at hlen; omega
          by_cases hu : u = t
          · subst hu
            rw [parseLoop_unknown_step u rest a hd hmem]
            rcases parseLoop_errors_mono n rest
                (Quapp.pushErr (Quapp.unknownFlagMsg a.command u) a) hlen' with ⟨l, hl⟩
            refine ⟨a.command, ?_⟩
            rw [hl]
            simp [Quapp.pushErr]
          · have ht : t ∈ rest := by
              rcases List.mem_cons.mp hm with h | h
              · exact absurd h.symm hu
              · exact h
            rcases Quapp.parseLoop_cons_cases u rest a with
              ⟨_, e⟩ | ⟨_, a', e, _⟩ | ⟨_, v, rest2, a', hrest, _, hnd, e, _⟩
            · rw [e]; exact ih rest _ hlen' ht
            · rw [e]; exact ih rest a' hlen' ht
            · rw [e]
              subst hrest
              have hlen2 : rest2.length ≤ n := by
                simp only [List.length_cons] at hlen; omega
              have hnv : v ≠ t := fun h => by
                subst h; rw [hnd] at hd; exact Bool.false_ne_true hd
              have ht2 : t ∈ rest2 := by
                rcases List.mem_cons.mp ht with h | h
                · exact absurd h.symm hnv
                · exact h
              exact ih rest2 a' hlen2 ht2

lemma unknown_option_msg_ne (t : String) :
    "Unknown option: " ++ t ≠ "--template requires a value" := by
  intro h
  have h2 := congrArg String.data h
  rw [String.data_append] at h2
  have h3 := congrArg (fun l => l.headD ' ') h2
  have h4 : ('U' : Char) = '-' := h3
  exact absurd h4 (by decide)

/-- C2 (amended): in the current dev-tool parser, every input containing an
unrecognized dash-initial token records an unknown-flag error naming that
token, and the pass-through bucket `extra` stays empty — nothing is ever
forwarded.  The scaffolder reports "Unknown option" for such a token in flag
position, but a token immediately following a valued flag is instead
swallowed by that flag's missing-value check, with no unknown-flag error
naming it.  The legacy dev-tool parser never records an unknown-flag error:
in flag position it silently forwards the token in `extra` (see
`c2_counterexample`), and immediately after a valued flag it consumes the
token as that flag's value, neither erroring nor forwarding. -/
theorem c2_unknown_flag_policy (t : String) (hd : headIsDash t = true)
    (h1 : t ∉ Quapp.flagTokens) (h2 : t ∉ CreateQuapp.flagTokens) :
    (∀ argv : List String, t ∈ argv →
      (∃ c, Quapp.unknownFlagMsg c t ∈ (Quapp.parseArgs argv).errors)
      ∧ (Quapp.parseArgs argv).extra = [])
    ∧ ((CreateQuapp.parseArgs [t]).errors = ["Unknown option: " ++ t]
      ∧ (CreateQuapp.parseArgs ["-t", t]).errors = ["--template requires a value"]
      ∧ ("Unknown option: " ++ t) ∉ (CreateQuapp.parseArgs ["-t", t]).errors)
    ∧ ((QuappLegacy.parseArgs [t]).errors = []
      ∧ (QuappLegacy.parseArgs [t]).extra = [t]
      ∧ (QuappLegacy.parseArgs ["--host", t]).errors = []
      ∧ (QuappLegacy.parseArgs ["--host", t]).extra = []
      ∧ (QuappLegacy.parseArgs ["--host", t]).host = some t) := by
  have hscaf2 : (CreateQuapp.parseArgs ["-t", t]).errors
      = ["--template requires a value"] := by
    have e0 : CreateQuapp.parseLoop ["-t", t] {} =
        if t = "" ∨ headIsDash t = true then
          CreateQuapp.pushErr "--template requires a value" {}
        else if CreateQuapp.ALL_TEMPLATES.contains t = false then
          CreateQuapp.pushErr (CreateQuapp.invalidTemplateMsg t) {}
        else CreateQuapp.setTemplate t {} := rfl
    rw [if_pos (Or.inr hd)] at e0
    unfold CreateQuapp.parseArgs
    rw [e0]
    rfl
  refine ⟨?_, ⟨?_, hscaf2, ?_⟩, ?_, ?_, rfl, rfl, rfl⟩
  · intro argv hm
    constructor
    · rcases parseLoop_unknown_mem argv.length t hd h1 argv {} le_rfl hm with ⟨c, hc⟩
      exact ⟨c, validate_errors_mem _ _ hc⟩
    · unfold Quapp.parseArgs
      rw [validate_extra]
      exact (parseLoop_extra_keep argv.length argv {} le_rfl).trans rfl
  · unfold CreateQuapp.parseArgs
    rw [scaffolder_unknown_single t hd h2]
  · rw [hscaf2]
    simp [unknown_option_msg_ne t]
  · unfold QuappLegacy.parseArgs
    rw [legacy_unknown_single t hd h1]
  · unfold QuappLegacy.parseArgs
    rw [legacy_unknown_single t hd h1]

/-- Witness for `c2_unknown_flag_policy` at the token `--bogus`, exercising
the universal dev-tool half at a non-singleton input. -/
theorem c2_witness :
    ((∃ c, Quapp.unknownFlagMsg c "--bogus" ∈ (Quapp.parseArgs ["serve", "--bogus"]).errors)
      ∧ (Quapp.parseArgs ["serve", "--bogus"]).extra = [])
    ∧ (CreateQuapp.parseArgs ["-t", "--bogus"]).errors = ["--template requires a value"]
    ∧ (QuappLegacy.parseArgs ["--host", "--bogus"]).errors = []
    ∧ (QuappLegacy.parseArgs ["--host", "--bogus"]).host = some "--bogus" := by
  have H := c2_unknown_flag_policy "--bogus" (by decide) (by decide) (by decide)
  exact ⟨H.1 ["serve", "--bogus"] (by decide), H.2.1.2.1, H.2.2.2.2.1, H.2.2.2.2.2.2⟩
